import Mathlib

/-!
Shallow embedding of the temporal-arithmetic and interpolation core of the
`arbitrage` repository (datetime.h / datetime.cpp, interpolation.h /
interpolation.cpp, linearinterplation.cpp, cubicspline.cpp), together with
theorems settling the frozen claims C1-C10.

Modelling conventions:
* C++ `long long` / `int` values are modelled as `ℤ` (no claim exercises
  overflow); C++ `double` values that carry exact quantities are modelled
  as `ℚ`.
* C `round()` (round to nearest, halves away from zero) is `roundHalfAway`.
* C++ integer division (`/` on integer operands, truncation toward zero)
  is `Int.tdiv`.
* Fallible constructors/operations return `Except`/`Option`; an
  out-of-bounds `std::vector` read or control falling off the end of a
  value-returning function (both undefined behaviour in C++) surface as
  an explicit `UndefinedBehavior` error value.
-/

/-- C `round`: round to the nearest integer, halves away from zero. -/
def roundHalfAway (q : ℚ) : ℤ :=
  if 0 ≤ q then ⌊q + 1/2⌋ else ⌈q - 1/2⌉

/-- `enum EpochTimestampType` from datetime.h. -/
inductive EpochTimestampType
  | SECONDS
  | MILLISECONDS
  | MICROSECONDS
  | NANOSECONDS
deriving DecidableEq, Repr

/-- The numeric value of the enum constant (`SECONDS = 1`,
`MILLISECONDS = 1000`, `MICROSECONDS = 1000000`, `NANOSECONDS = 1000000000`),
used as a scale factor throughout the source. -/
def EpochTimestampType.value : EpochTimestampType → ℤ
  | .SECONDS => 1
  | .MILLISECONDS => 1000
  | .MICROSECONDS => 1000000
  | .NANOSECONDS => 1000000000

/-- `class TimeDelta`: seven independent signed integer fields. -/
structure TimeDelta where
  d : ℤ
  h : ℤ
  m : ℤ
  s : ℤ
  ms : ℤ
  mcs : ℤ
  ns : ℤ
deriving DecidableEq, Repr

/-- `TimeDelta::get_total_seconds`.  In the source the sub-second
contributions are written `round(mcs/mcs_value)` etc., but both operands of
`/` are integers, so the division truncates toward zero before `round` ever
sees it; `round` of an already integral value is the identity.  Hence
`Int.tdiv`. -/
def TimeDelta.get_total_seconds (td : TimeDelta) : ℤ :=
  let mcs_value : ℤ := EpochTimestampType.MICROSECONDS.value
  let ns_value : ℤ := EpochTimestampType.NANOSECONDS.value
  let ms_value : ℤ := EpochTimestampType.MILLISECONDS.value
  let day_s := td.d * 24 * 60 * 60
  let hour_s := td.h * 60 * 60
  let min_s := td.m * 60
  let micros_s := Int.tdiv td.mcs mcs_value
  let millis_s := Int.tdiv td.ms ms_value
  let nanos_s := Int.tdiv td.ns ns_value
  td.s + day_s + hour_s + min_s + micros_s + millis_s + nanos_s

/-- `TimeDelta::get_total_milliseconds` (same truncating integer-division
reading of the `round(...)` calls as in `get_total_seconds`). -/
def TimeDelta.get_total_milliseconds (td : TimeDelta) : ℤ :=
  let mcs_value : ℤ := EpochTimestampType.MICROSECONDS.value
  let ns_value : ℤ := EpochTimestampType.NANOSECONDS.value
  let ms_value : ℤ := EpochTimestampType.MILLISECONDS.value
  let day_s := td.d * 24 * 60 * 60
  let hour_s := td.h * 60 * 60
  let min_s := td.m * 60
  let total_seconds := td.s + day_s + hour_s + min_s
  let micros_ms := Int.tdiv (td.mcs * ms_value) mcs_value
  let nanos_ms := Int.tdiv (td.ns * ms_value) ns_value
  total_seconds * 1000 + td.ms + micros_ms + nanos_ms

/-- `TimeDelta::get_total_microseconds`. -/
def TimeDelta.get_total_microseconds (td : TimeDelta) : ℤ :=
  let mcs_value : ℤ := EpochTimestampType.MICROSECONDS.value
  let ns_value : ℤ := EpochTimestampType.NANOSECONDS.value
  let day_s := td.d * 24 * 60 * 60
  let hour_s := td.h * 60 * 60
  let min_s := td.m * 60
  let total_seconds := td.s + day_s + hour_s + min_s
  let total_milliseconds := total_seconds * 1000 + td.ms
  let nanos_ms := Int.tdiv (td.ns * mcs_value) ns_value
  total_milliseconds * 1000 + td.mcs + nanos_ms

/-- `TimeDelta::get_total_nanoseconds` (exact weighted sum, no division). -/
def TimeDelta.get_total_nanoseconds (td : TimeDelta) : ℤ :=
  let day_s := td.d * 24 * 60 * 60
  let hour_s := td.h * 60 * 60
  let min_s := td.m * 60
  let total_seconds := td.s + day_s + hour_s + min_s
  let total_milliseconds := total_seconds * 1000 + td.ms
  let total_microseconds := total_milliseconds * 1000 + td.mcs
  total_microseconds * 1000 + td.ns

/-- The 4-way precision dispatch used by `DateTime::apply_time_delta`. -/
def TimeDelta.total_at (td : TimeDelta) : EpochTimestampType → ℤ
  | .SECONDS => td.get_total_seconds
  | .MILLISECONDS => td.get_total_milliseconds
  | .MICROSECONDS => td.get_total_microseconds
  | .NANOSECONDS => td.get_total_nanoseconds

/-- The total-seconds aggregation as the spec and claim C2 word it: each
finer-unit contribution rounded to the NEAREST integer independently before
summing.  This definition follows the claim's words, for comparison with
the source-derived `TimeDelta.get_total_seconds`. -/
def TimeDelta.totalSecondsSpec (td : TimeDelta) : ℤ :=
  td.d * 86400 + td.h * 3600 + td.m * 60 + td.s
    + roundHalfAway ((td.ms : ℚ) / 1000)
    + roundHalfAway ((td.mcs : ℚ) / 1000000)
    + roundHalfAway ((td.ns : ℚ) / 1000000000)

/-- `class DateTime`: an epoch tick count plus its precision tag. -/
structure DateTime where
  tmsp : ℤ
  type_ : EpochTimestampType
deriving DecidableEq, Repr

/-- The `DateTime` constructor: rejects a negative timestamp with
`NegativeEpochTimestampError`. -/
def DateTime.make (timestamp : ℤ) (type : EpochTimestampType) :
    Except Unit DateTime :=
  if timestamp < 0 then .error () else .ok ⟨timestamp, type⟩

/-- `DateTime::set_timestamp`: unconditional assignment, no validation. -/
def DateTime.set_timestamp (dt : DateTime) (timestamp : ℤ) : DateTime :=
  { dt with tmsp := timestamp }

/-- `DateTime::set_timestamp_type`. -/
def DateTime.set_timestamp_type (dt : DateTime) (type : EpochTimestampType) :
    DateTime :=
  { dt with type_ := type }

/-- `DateTime::convert_timestamp`: `factor = double(target)/double(current)`,
`new_tmsp = round(factor * tmsp)`.  The double quotient and product are
modelled by the exact rational value; `round` is `roundHalfAway`. -/
def DateTime.convert_timestamp (dt : DateTime) (type : EpochTimestampType) :
    DateTime :=
  let type1 : ℤ := type.value
  let type2 : ℤ := dt.type_.value
  let factor : ℚ := (type1 : ℚ) / (type2 : ℚ)
  let new_tmsp := roundHalfAway (factor * (dt.tmsp : ℚ))
  (dt.set_timestamp new_tmsp).set_timestamp_type type

/-- `DateTime::apply_time_delta`: adds the delta's total in the current
precision; no validation, no error path. -/
def DateTime.apply_time_delta (dt : DateTime) (td : TimeDelta) : DateTime :=
  { dt with tmsp := dt.tmsp + td.total_at dt.type_ }

/-- Free function `get_timedelta(start, end, delta_type)`: converts both
endpoints to `delta_type` (mutating them), takes the ticks difference,
restores both to their original precision by converting again, and returns
a `TimeDelta` with only the field for `delta_type` populated.  The mutation
is modelled by returning the two post-call endpoint states alongside the
delta. -/
def get_timedelta (start_datetime end_datetime : DateTime)
    (delta_type : EpochTimestampType) : DateTime × DateTime × TimeDelta :=
  let start_type := start_datetime.type_
  let end_type := end_datetime.type_
  let s1 := start_datetime.convert_timestamp delta_type
  let e1 := end_datetime.convert_timestamp delta_type
  let delta := e1.tmsp - s1.tmsp
  let s2 := s1.convert_timestamp start_type
  let e2 := e1.convert_timestamp end_type
  let td : TimeDelta :=
    match delta_type with
    | .SECONDS => ⟨0, 0, 0, delta, 0, 0, 0⟩
    | .MILLISECONDS => ⟨0, 0, 0, 0, delta, 0, 0⟩
    | .MICROSECONDS => ⟨0, 0, 0, 0, 0, delta, 0⟩
    | .NANOSECONDS => ⟨0, 0, 0, 0, 0, 0, delta⟩
  (s2, e2, td)

/-- All `TimeDelta` fields other than the one matching the unit are zero. -/
def TimeDelta.onlyFieldOf (u : EpochTimestampType) (td : TimeDelta) : Prop :=
  td.d = 0 ∧ td.h = 0 ∧ td.m = 0 ∧
  (match u with
   | .SECONDS => td.ms = 0 ∧ td.mcs = 0 ∧ td.ns = 0
   | .MILLISECONDS => td.s = 0 ∧ td.mcs = 0 ∧ td.ns = 0
   | .MICROSECONDS => td.s = 0 ∧ td.ms = 0 ∧ td.ns = 0
   | .NANOSECONDS => td.s = 0 ∧ td.ms = 0 ∧ td.mcs = 0)

/-- `enum DayCountConvention` from datetime.h. -/
inductive DayCountConvention
  | ACT360
  | ACT365
  | ACT364
deriving DecidableEq, Repr

/-- `get_number_days_in_year`: table lookup (the `default` throw is
unreachable for values of the closed enumeration). -/
def get_number_days_in_year : DayCountConvention → ℤ
  | .ACT360 => 360
  | .ACT365 => 365
  | .ACT364 => 364

/-- `get_number_days_in_month`: `round(get_number_days_in_year(dcc)/12)`
where both division operands are `int`, so the quotient is truncated toward
zero before `round` (identity on integral values) is applied. -/
def get_number_days_in_month (dcc : DayCountConvention) : ℤ :=
  Int.tdiv (get_number_days_in_year dcc) 12

/-- `enum Tenor` from datetime.h. -/
inductive Tenor
  | ON | TN | SN
  | _1W | _2W
  | _1M | _3M | _6M
  | _1Y | _5Y | _10Y | _20Y | _30Y
deriving DecidableEq, Repr

/-- `get_tenor_in_days`: enumerated lookup with convention-dependent
month/year scaling. -/
def get_tenor_in_days (tenor : Tenor) (dcc : DayCountConvention) : ℤ :=
  let days_in_year := get_number_days_in_year dcc
  let days_in_month := get_number_days_in_month dcc
  match tenor with
  | .ON => 1
  | .TN => 2
  | .SN => 3
  | ._1W => 7
  | ._2W => 14
  | ._1M => days_in_month
  | ._3M => 3 * days_in_month
  | ._6M => 6 * days_in_month
  | ._1Y => days_in_year
  | ._5Y => 5 * days_in_year
  | ._10Y => 10 * days_in_year
  | ._20Y => 20 * days_in_year
  | ._30Y => 30 * days_in_year

/-- `get_tenor_in_timedelta`: a `TimeDelta` with only the days field set. -/
def get_tenor_in_timedelta (tenor : Tenor) (dcc : DayCountConvention) :
    TimeDelta :=
  ⟨get_tenor_in_days tenor dcc, 0, 0, 0, 0, 0, 0⟩

/-- `get_tenor_year_fraction`: the source divides the two `int` values
`get_tenor_in_days(tenor, dcc)` and `get_number_days_in_year(dcc)` with
integer `/` (truncation toward zero) and only then converts the quotient to
the `double` return value. -/
def get_tenor_year_fraction (tenor : Tenor) (dcc : DayCountConvention) : ℚ :=
  ((Int.tdiv (get_tenor_in_days tenor dcc) (get_number_days_in_year dcc) : ℤ) : ℚ)

/-- Error raised by `get_year_fraction_from_datetimes`. -/
inductive CalendarError
  | NonPositiveYearFractionError
deriving DecidableEq, Repr

/-- `get_year_fraction_from_datetimes`: year fraction =
`total_nanoseconds / (days_in_year * 86400e9)` (exact rational value of the
double division); fails when the fraction is strictly negative.  The
endpoint mutation performed by the inner `get_timedelta` call is discarded
here exactly as the source discards it (only the returned delta is used). -/
def get_year_fraction_from_datetimes (start_datetime end_datetime : DateTime)
    (day_count_convention : DayCountConvention) : Except CalendarError ℚ :=
  let ns_value : ℤ := EpochTimestampType.NANOSECONDS.value
  let dt := (get_timedelta start_datetime end_datetime .NANOSECONDS).2.2
  let total_ns := dt.get_total_nanoseconds
  let day_in_s : ℤ := 24 * 60 * 60
  let day_in_ns : ℤ := day_in_s * ns_value
  let t : ℚ := (total_ns : ℚ) /
    ((get_number_days_in_year day_count_convention * day_in_ns : ℤ) : ℚ)
  if t < 0 then .error .NonPositiveYearFractionError else .ok t

/-- `sequence_length_from_frequency_tenor`:
`round(total_seconds(start, end) / total_seconds(frequency))` with the
double division modelled by the exact rational quotient; the `double` to
`int` conversion of the already integral `round` result is the identity.
The inner `get_timedelta` call mutates (and lossily restores) the shared
`start`/`end` objects; that post-call endpoint state is threaded out
explicitly as the first two components of the result, the period count
being the third. -/
def sequence_length_from_frequency_tenor
    (start_datetime end_datetime : DateTime) (frequency_tenor : Tenor)
    (day_count_convention : DayCountConvention) :
    DateTime × DateTime × ℤ :=
  let freq_dt := get_tenor_in_timedelta frequency_tenor day_count_convention
  let r := get_timedelta start_datetime end_datetime .SECONDS
  (r.1, r.2.1,
    roundHalfAway ((r.2.2.get_total_seconds : ℚ) /
      (freq_dt.get_total_seconds : ℚ)))

/-- The `while (i < n)` body of `generate_datetime_sequence`: starting from
the running copy of `start`, repeatedly apply the frequency delta and push a
copy after each application.  The loop runs `max(n-1, 0)` times. -/
def genLoop (dt_ptr : TimeDelta) : DateTime → ℕ → List DateTime
  | _, 0 => []
  | cur, k + 1 =>
    let nxt := cur.apply_time_delta dt_ptr
    nxt :: genLoop dt_ptr nxt k

/-- `generate_datetime_sequence`.  The running copy `next_datetime` is
taken from `*start_datetime` BEFORE `sequence_length_from_frequency_tenor`
runs, so the interior points grow from the pristine start ticks; the
`include_start`/`include_end` insertions, however, push the shared
`start_datetime`/`end_datetime` objects as the period computation's
SECONDS round trip left them (mutated and lossily restored). -/
def generate_datetime_sequence (start_datetime : DateTime)
    (frequency_tenor : Tenor) (day_count_convention : DayCountConvention)
    (include_start include_end : Bool) (end_datetime : DateTime) :
    List DateTime :=
  let dt_ptr := get_tenor_in_timedelta frequency_tenor day_count_convention
  let next0 := start_datetime
  let r := sequence_length_from_frequency_tenor start_datetime end_datetime
    frequency_tenor day_count_convention
  let interior := genLoop dt_ptr next0 (r.2.2 - 1).toNat
  let with_start := if include_start then r.1 :: interior else interior
  if include_end then with_start ++ [r.2.1] else with_start

/-- Error kinds of the interpolation subsystem
(`Interpolation2DMinimalVectorSize`, `Interpolation2DOutOfRange`,
`Interpolation2DWrongXaxis`), plus an explicit marker for executions that
are undefined behaviour in the C++ source (out-of-bounds `std::vector`
read, or control falling off the end of a value-returning function). -/
inductive InterpolationError
  | MinimalVectorSize
  | OutOfRange
  | WrongXaxis
  | UndefinedBehavior
deriving DecidableEq, Repr

/-- Ordered insertion of one key/value pair into a key-sorted association
list, keeping the existing entry when the key is already present: the
insertion semantics of `std::map<double, double>`. -/
def mapInsert : List (ℚ × ℚ) → ℚ × ℚ → List (ℚ × ℚ)
  | [], p => [p]
  | q :: l, p =>
    if p.1 < q.1 then p :: q :: l
    else if p.1 = q.1 then q :: l
    else q :: mapInsert l p

/-- The `std::map<double, double>` built from the given entries in
insertion order: iteration is in strictly ascending key order and duplicate
keys keep the first inserted value. -/
def mkMap (input : List (ℚ × ℚ)) : List (ℚ × ℚ) :=
  input.foldl mapInsert []

/-- `class Interpolation2D` (interpolation.h): the stored map, the key and
value vectors, and the cached extreme keys. -/
structure Interpolation2D where
  mapped_x_y : List (ℚ × ℚ)
  x : List ℚ
  y : List ℚ
  x_min : ℚ
  x_max : ℚ
deriving DecidableEq, Repr

/-- `Interpolation2D::get_x_values`: collects the map's keys in iteration
order, then rejects fewer than 2 keys with
`Interpolation2DMinimalVectorSize`.  The source's strictly-increasing check
is dead code: the `for` loop body has no braces, so only the `push_back`
is iterated and the `if (keys[i-1] > keys[i])` test runs once after the
loop with `i = 0`, never firing; moreover `std::map` iterates keys in
ascending order, so the guarded condition can never hold anyway —
`Interpolation2DWrongXaxis` is unreachable. -/
def get_x_values (mapped_x_y : List (ℚ × ℚ)) :
    Except InterpolationError (List ℚ) :=
  let keys := mapped_x_y.map Prod.fst
  if keys.length < 2 then .error .MinimalVectorSize else .ok keys

/-- `*std::min_element(x.begin(), x.end())` over the (nonempty) key
vector. -/
def axisMinX (xs : List ℚ) : ℚ :=
  xs.foldl min (xs.headD 0)

/-- The `Interpolation2D` constructor.  C++ initializes the members in
declaration order `mapped_x_y, x, y, x_min, x_max` regardless of the order
written in the initializer list, which provides `mapped_x_y(mapped_x_y_)`,
`x(get_x_values())`, `x_max(*std::max_element(x.begin(), x.end()))` and
`y(*std::min_element(x.begin(), x.end()))`.  Consequently:
* `y` is direct-initialized from a `double` via the
  `std::vector<double>(size_type)` count constructor: the `double` value
  `min x` is converted to `size_t` by truncation toward zero, which is
  undefined behaviour whenever the truncated value is not representable in
  `size_t` — i.e. when `min x <= -1` or `min x >= 2^64`; that case is
  surfaced as the `UndefinedBehavior` error.  Otherwise `y` is a vector of
  `trunc(min x)` zeros (for `min x` in `(-1, 2^64)` the truncation equals
  `⌊min x⌋.toNat`);
* `x_min` appears in no initializer and is default-initialized to an
  indeterminate value, modelled by the extra parameter
  `x_min_indeterminate`. -/
def Interpolation2D.make (input : List (ℚ × ℚ)) (x_min_indeterminate : ℚ) :
    Except InterpolationError Interpolation2D :=
  let mapped := mkMap input
  match get_x_values mapped with
  | .error err => .error err
  | .ok xs =>
    let min_x := axisMinX xs
    if min_x ≤ -1 ∨ (18446744073709551616 : ℚ) ≤ min_x then
      .error .UndefinedBehavior
    else
      let y_member : List ℚ := List.replicate ⌊min_x⌋.toNat 0
      let max_x := xs.foldl max (xs.headD 0)
      .ok ⟨mapped, xs, y_member, x_min_indeterminate, max_x⟩

/-- `mapped_x_y.at(key)`: map lookup.  A missing key would throw
`std::out_of_range`; it is surfaced as `none` and mapped to the
undefined/unreachable error by the callers. -/
def mapAt (mapped_x_y : List (ℚ × ℚ)) (key : ℚ) : Option ℚ :=
  (mapped_x_y.find? (fun p => decide (p.1 = key))).map Prod.snd

/-- `LinearInterpolation2D::linear_interpolate`. -/
def LinearInterpolation2D.linear_interpolate (x0 y0 x1 y1 xv : ℚ) : ℚ :=
  y0 + (xv - x0) * (y1 - y0) / (x1 - x0)

/-- The scan of `LinearInterpolation2D::evaluate`'s `for` loop: the first
adjacent pair `x[i-1], x[i]` (ascending `i`) with
`x[i-1] <= xv && xv <= x[i]`. -/
def findSegment : List ℚ → ℚ → Option (ℚ × ℚ)
  | x0 :: x1 :: rest, xv =>
    if x0 ≤ xv ∧ xv ≤ x1 then some (x0, x1) else findSegment (x1 :: rest) xv
  | _, _ => none

/-- `LinearInterpolation2D::evaluate`: range check against the (never
initialized) `x_min` member and `x_max`, then the left-to-right segment
scan; if the loop ends without a match, control falls off the end of the
value-returning function — undefined behaviour. -/
def LinearInterpolation2D.evaluate (itp : Interpolation2D) (xv : ℚ) :
    Except InterpolationError ℚ :=
  if xv < itp.x_min ∨ itp.x_max < xv then .error .OutOfRange
  else
    match findSegment itp.x xv with
    | none => .error .UndefinedBehavior
    | some (x0, x1) =>
      match mapAt itp.mapped_x_y x0, mapAt itp.mapped_x_y x1 with
      | some y0, some y1 =>
        .ok (LinearInterpolation2D.linear_interpolate x0 y0 x1 y1 xv)
      | _, _ => .error .UndefinedBehavior

/-- `LinearInterpolation2D` construction followed by one `evaluate` call,
with the indeterminate `x_min` value passed through. -/
def linear_evaluate_from (input : List (ℚ × ℚ))
    (x_min_indeterminate xv : ℚ) : Except InterpolationError ℚ :=
  match Interpolation2D.make input x_min_indeterminate with
  | .error err => .error err
  | .ok itp => LinearInterpolation2D.evaluate itp xv

/-- `CubicSpline2D::get_parameters`, the natural-cubic-spline tridiagonal
solve, over the knot vector `x` and the coefficient vector `a` (which the
constructor copies from the `Interpolation2D::y` member).  Every
`std::vector` subscript is modelled by `List.get?`; an out-of-bounds read
(undefined behaviour in C++) makes the whole computation `none`.  The
source's divisions are on `double`s; they are modelled exactly on `ℚ`
(the divisors are nonzero whenever the solve is reached with a strictly
increasing knot vector of matching length).  Returns `(b_, c_, d_)`. -/
def cubic_get_parameters (x a : List ℚ) :
    Option (List ℚ × List ℚ × List ℚ) := do
  let n := x.length - 1
  let h ← (List.range n).mapM (fun i => do
    let x1 ← x.get? (i + 1)
    let x0 ← x.get? i
    pure (x1 - x0))
  let alpha ← (List.range n).mapM (fun i =>
    if i = 0 then pure 0 else do
      let hi ← h.get? i
      let hm ← h.get? (i - 1)
      let a1 ← a.get? (i + 1)
      let a0 ← a.get? i
      let am ← a.get? (i - 1)
      pure (3 / hi * (a1 - a0) - 3 / hm * (a0 - am)))
  let fwd ← (List.range (n - 1)).foldlM
    (fun (acc : List ℚ × List ℚ) k => do
      let i := k + 1
      let x1 ← x.get? (i + 1)
      let xm ← x.get? (i - 1)
      let hm ← h.get? (i - 1)
      let hi ← h.get? i
      let mum ← acc.1.get? (i - 1)
      let zm ← acc.2.get? (i - 1)
      let ai ← alpha.get? i
      let li := 2 * (x1 - xm) - hm * mum
      pure (acc.1 ++ [hi / li], acc.2 ++ [(ai - hm * zm) / li]))
    ([0], [0])
  let mus := fwd.1
  let zs := fwd.2 ++ [0]
  let back ← (List.range n).foldlM
    (fun (acc : List ℚ × List ℚ × List ℚ) k => do
      let j := n - 1 - k
      let c1 ← acc.1.get? 0
      let zj ← zs.get? j
      let muj ← mus.get? j
      let a1 ← a.get? (j + 1)
      let a0 ← a.get? j
      let hj ← h.get? j
      let cj := zj - muj * c1
      pure (cj :: acc.1,
        ((a1 - a0) / hj - hj * (c1 + 2 * cj) / 3) :: acc.2.1,
        ((c1 - cj) / (3 * hj)) :: acc.2.2))
    ([0], [], [])
  pure (back.2.1, back.1, back.2.2)

/-- `class CubicSpline2D`: the base subobject plus the per-segment
polynomial coefficient vectors. -/
structure CubicSpline2D where
  base : Interpolation2D
  x_ : List ℚ
  a_ : List ℚ
  b_ : List ℚ
  c_ : List ℚ
  d_ : List ℚ
deriving DecidableEq, Repr

/-- The `CubicSpline2D` constructor: builds the base subobject, then runs
`get_parameters`, whose coefficient vector `a_` is copied from the base's
`y` member (`a_ = Interpolation2D::y;` in the source) — the vector of
zeros described at `Interpolation2D.make`, not the mapped y values. -/
def CubicSpline2D.make (input : List (ℚ × ℚ)) (x_min_indeterminate : ℚ) :
    Except InterpolationError CubicSpline2D :=
  match Interpolation2D.make input x_min_indeterminate with
  | .error err => .error err
  | .ok base =>
    match cubic_get_parameters base.x base.y with
    | none => .error .UndefinedBehavior
    | some (bs, cs, ds) => .ok ⟨base, base.x, base.y, bs, cs, ds⟩

theorem EpochTimestampType.value_pos (t : EpochTimestampType) : 0 < t.value := by
  cases t <;> simp [value]

theorem roundHalfAway_intCast (n : ℤ) : roundHalfAway (n : ℚ) = n := by
  unfold roundHalfAway
  split
  · have : ⌊(n : ℚ) + 1/2⌋ = n := by
      rw [Int.floor_eq_iff]
      constructor <;> linarith
    exact this
  · have : ⌈(n : ℚ) - 1/2⌉ = n := by
      rw [Int.ceil_eq_iff]
      constructor <;> linarith
    exact this

theorem abs_roundHalfAway_sub (q : ℚ) : |(roundHalfAway q : ℚ) - q| ≤ 1/2 := by
  unfold roundHalfAway
  split
  · rw [abs_le]
    have h1 : (⌊q + 1/2⌋ : ℚ) ≤ q + 1/2 := Int.floor_le _
    have h2 : q + 1/2 - 1 < (⌊q + 1/2⌋ : ℚ) := Int.sub_one_lt_floor _
    constructor <;> linarith
  · rw [abs_le]
    have h1 : q - 1/2 ≤ (⌈q - 1/2⌉ : ℚ) := Int.le_ceil _
    have h2 : (⌈q - 1/2⌉ : ℚ) < q - 1/2 + 1 := Int.ceil_lt_add_one _
    constructor <;> linarith

/-- Converting a tick count from scale `sa` to a finer-or-equal scale `sp`
(`sa ∣ sp`) and back recovers it exactly: the upscaling multiplies by an
integer and the downscaling divides it out before any rounding can bite. -/
theorem convert_roundtrip_exact (t sa sp : ℤ) (hsa : 0 < sa) (hsp : 0 < sp)
    (hdvd : sa ∣ sp) :
    roundHalfAway ((sa : ℚ) / (sp : ℚ) *
      (roundHalfAway ((sp : ℚ) / (sa : ℚ) * (t : ℚ)) : ℚ)) = t := by
  obtain ⟨k, hk⟩ := hdvd
  have hk0 : 0 < k := by nlinarith
  have hsa0 : (sa : ℚ) ≠ 0 := Int.cast_ne_zero.mpr (by omega)
  have hk0' : (k : ℚ) ≠ 0 := Int.cast_ne_zero.mpr (by omega)
  have h1 : (sp : ℚ) / (sa : ℚ) * (t : ℚ) = ((k * t : ℤ) : ℚ) := by
    rw [hk]
    push_cast
    rw [mul_comm (sa : ℚ) (k : ℚ), mul_div_assoc, div_self hsa0, mul_one]
  rw [h1, roundHalfAway_intCast]
  have h2 : (sa : ℚ) / (sp : ℚ) * ((k * t : ℤ) : ℚ) = ((t : ℤ) : ℚ) := by
    rw [hk]
    push_cast
    rw [div_mul_eq_div_div, div_self hsa0, one_div, inv_mul_cancel_left₀ hk0']
  rw [h2, roundHalfAway_intCast]

/-- Round-trip conversion between any two positive scales, one of which
divides the other, moves the tick count by at most half a unit of the
intermediate scale: `2 * sp * |roundtrip - t| ≤ sa`. -/
theorem convert_roundtrip_bound (t sa sp : ℤ) (hsa : 0 < sa) (hsp : 0 < sp)
    (hdvd : sa ∣ sp ∨ sp ∣ sa) :
    2 * sp * |roundHalfAway ((sa : ℚ) / (sp : ℚ) *
      (roundHalfAway ((sp : ℚ) / (sa : ℚ) * (t : ℚ)) : ℚ)) - t| ≤ sa := by
  rcases hdvd with hdvd | hdvd
  · rw [convert_roundtrip_exact t sa sp hsa hsp hdvd]
    simp only [sub_self, abs_zero, mul_zero]
    omega
  · obtain ⟨k, hk⟩ := hdvd
    have hk0 : 0 < k := by nlinarith
    have hsp0 : (sp : ℚ) ≠ 0 := Int.cast_ne_zero.mpr (by omega)
    have hk0' : (k : ℚ) ≠ 0 := Int.cast_ne_zero.mpr (by omega)
    have hkpos : (0 : ℚ) < (k : ℚ) := by exact_mod_cast hk0
    have e1 : (sp : ℚ) / (sa : ℚ) * (t : ℚ) = (t : ℚ) / (k : ℚ) := by
      rw [hk]
      push_cast
      rw [div_mul_eq_div_div, div_self hsp0, one_div, inv_mul_eq_div]
    have e2 : (sa : ℚ) / (sp : ℚ) * ((roundHalfAway ((t : ℚ) / (k : ℚ)) : ℤ) : ℚ)
        = ((k * roundHalfAway ((t : ℚ) / (k : ℚ)) : ℤ) : ℚ) := by
      rw [hk]
      push_cast
      rw [mul_comm (sp : ℚ) (k : ℚ), mul_div_assoc, div_self hsp0, mul_one]
    rw [e1, e2, roundHalfAway_intCast]
    set r1 : ℤ := roundHalfAway ((t : ℚ) / (k : ℚ)) with hr1
    have hb := abs_le.mp (abs_roundHalfAway_sub ((t : ℚ) / (k : ℚ)))
    have hkt : (k : ℚ) * ((t : ℚ) / (k : ℚ)) = (t : ℚ) := by
      field_simp
    have hexp : (k : ℚ) * ((r1 : ℚ) - (t : ℚ) / (k : ℚ))
        = (k : ℚ) * (r1 : ℚ) - (t : ℚ) := by
      rw [mul_sub, hkt]
    have hup := mul_le_mul_of_nonneg_left hb.2 (le_of_lt hkpos)
    have hlo := mul_le_mul_of_nonneg_left hb.1 (le_of_lt hkpos)
    have habs : |(k : ℚ) * (r1 : ℚ) - (t : ℚ)| ≤ (k : ℚ) / 2 := by
      rw [abs_le]
      constructor <;> nlinarith
    have hq : (2 : ℚ) * |(k : ℚ) * (r1 : ℚ) - (t : ℚ)| ≤ (k : ℚ) := by
      linarith
    have hZ : 2 * |k * r1 - t| ≤ k := by
      exact_mod_cast hq
    have hsp' : (0 : ℤ) ≤ sp := by omega
    calc 2 * sp * |k * r1 - t| = sp * (2 * |k * r1 - t|) := by ring
      _ ≤ sp * k := mul_le_mul_of_nonneg_left hZ hsp'
      _ = sa := by omega

/-- C2 (counterexample): claim C2 asserts that `get_total_seconds` rounds
each finer-unit contribution to the NEAREST integer.  On the delta with
1500 milliseconds and all other fields zero the source returns 1 (the
integer division `1500/1000` truncates before `round` is applied), while
the claimed rounded-to-nearest formula gives 2. -/
theorem C2_total_seconds_counterexample :
    (⟨0, 0, 0, 0, 1500, 0, 0⟩ : TimeDelta).get_total_seconds = 1 ∧
    TimeDelta.totalSecondsSpec ⟨0, 0, 0, 0, 1500, 0, 0⟩ = 2 ∧
    (1 : ℤ) ≠ 2 := by
  refine ⟨by decide, ?_, by decide⟩
  unfold TimeDelta.totalSecondsSpec roundHalfAway
  norm_num

/-- C2 (amended): for every TimeDelta, `get_total_seconds()` equals
`days*86400 + hours*3600 + minutes*60 + seconds + tdiv(ms,10^3) +
tdiv(mcs,10^6) + tdiv(ns,10^9)`, where each finer-unit contribution is
truncated toward zero (C++ integer division) independently before
summing. -/
theorem C2_total_seconds_amended (td : TimeDelta) :
    td.get_total_seconds =
      td.d * 86400 + td.h * 3600 + td.m * 60 + td.s
        + Int.tdiv td.ms 1000 + Int.tdiv td.mcs 1000000
        + Int.tdiv td.ns 1000000000 := by
  unfold TimeDelta.get_total_seconds
  simp only [EpochTimestampType.value]
  ring

/-- C3 (counterexample): claim C3 asserts both endpoints' ticks are
restored after `get_timedelta`.  With `start = (1500, MILLISECONDS)` and
`unit = SECONDS` the start endpoint is left with ticks 2000 (1500 ms
rounds to 2 s on the way out and scales back to 2000 ms), not 1500. -/
theorem C3_get_timedelta_counterexample :
    (get_timedelta ⟨1500, .MILLISECONDS⟩ ⟨3000, .MILLISECONDS⟩
      .SECONDS).1.tmsp = 2000 ∧ (2000 : ℤ) ≠ 1500 := by
  constructor
  · unfold get_timedelta DateTime.convert_timestamp DateTime.set_timestamp
      DateTime.set_timestamp_type roundHalfAway
    norm_num [EpochTimestampType.value]
  · decide

/-- C3 (amended): after `get_timedelta(start, end, unit)` both endpoints'
precision tags equal their original values, each endpoint's ticks are
restored exactly whenever its original scale divides the unit's scale (in
particular whenever the unit is at least as fine), and the returned
TimeDelta has only the field corresponding to `unit` populated, all other
fields zero.  (The ticks are in general only restored up to the rounding of
the two conversions, as the counterexample shows.) -/
theorem C3_get_timedelta_amended (s e : DateTime) (u : EpochTimestampType) :
    (get_timedelta s e u).1.type_ = s.type_ ∧
    (get_timedelta s e u).2.1.type_ = e.type_ ∧
    TimeDelta.onlyFieldOf u (get_timedelta s e u).2.2 ∧
    (s.type_.value ∣ u.value → (get_timedelta s e u).1.tmsp = s.tmsp) ∧
    (e.type_.value ∣ u.value → (get_timedelta s e u).2.1.tmsp = e.tmsp) := by
  refine ⟨?_, ?_, ?_, ?_, ?_⟩
  · simp [get_timedelta, DateTime.convert_timestamp, DateTime.set_timestamp,
      DateTime.set_timestamp_type]
  · simp [get_timedelta, DateTime.convert_timestamp, DateTime.set_timestamp,
      DateTime.set_timestamp_type]
  · cases u <;>
      simp [get_timedelta, TimeDelta.onlyFieldOf]
  · intro hdvd
    simp only [get_timedelta, DateTime.convert_timestamp,
      DateTime.set_timestamp, DateTime.set_timestamp_type]
    exact convert_roundtrip_exact s.tmsp s.type_.value u.value
      s.type_.value_pos u.value_pos hdvd
  · intro hdvd
    simp only [get_timedelta, DateTime.convert_timestamp,
      DateTime.set_timestamp, DateTime.set_timestamp_type]
    exact convert_roundtrip_exact e.tmsp e.type_.value u.value
      e.type_.value_pos u.value_pos hdvd

/-- C3 (witness): instantiating the amended theorem at
`start = (5, SECONDS)`, `end = (7, SECONDS)`, `unit = MILLISECONDS`
(scale 1 divides scale 1000) recovers the start ticks exactly. -/
theorem C3_get_timedelta_amended_witness :
    (get_timedelta ⟨5, .SECONDS⟩ ⟨7, .SECONDS⟩ .MILLISECONDS).1.tmsp = 5 :=
  (C3_get_timedelta_amended ⟨5, .SECONDS⟩ ⟨7, .SECONDS⟩
    .MILLISECONDS).2.2.2.1 (by decide)

/-- C4 (counterexample): claim C4 asserts the precision round trip changes
ticks by at most 1 unit.  Converting `(1500, MILLISECONDS)` to SECONDS and
back yields 2000, which differs from 1500 by 500 > 1. -/
theorem C4_convert_roundtrip_counterexample :
    (((⟨1500, .MILLISECONDS⟩ : DateTime).convert_timestamp
      .SECONDS).convert_timestamp .MILLISECONDS).tmsp = 2000 ∧
    ¬ (|(2000 : ℤ) - 1500| ≤ 1) := by
  constructor
  · unfold DateTime.convert_timestamp DateTime.set_timestamp
      DateTime.set_timestamp_type roundHalfAway
    norm_num [EpochTimestampType.value]
  · decide

/-- C4 (amended): for every timestamp value `t >= 0` at precision `a` and
every precision `p`, converting to `p` and back yields ticks within half a
unit of the coarser scale: `2 * scale(p) * |roundtrip - t| <= scale(a)` (in
particular the round trip is exact whenever `p` is at least as fine as
`a`). -/
theorem C4_convert_roundtrip_amended (t : ℤ) (a p : EpochTimestampType)
    (_ht : 0 ≤ t) :
    2 * p.value * |(((⟨t, a⟩ : DateTime).convert_timestamp
      p).convert_timestamp a).tmsp - t| ≤ a.value := by
  simp only [DateTime.convert_timestamp, DateTime.set_timestamp,
    DateTime.set_timestamp_type]
  exact convert_roundtrip_bound t a.value p.value a.value_pos p.value_pos
    (by cases a <;> cases p <;> decide)

/-- C4 (witness): the amended bound instantiated at `t = 1500`,
`a = MILLISECONDS`, `p = SECONDS`: the round trip lands at 2000 and
`2 * 1 * |2000 - 1500| = 1000 <= 1000`. -/
theorem C4_convert_roundtrip_amended_witness :
    2 * EpochTimestampType.SECONDS.value *
      |(((⟨1500, .MILLISECONDS⟩ : DateTime).convert_timestamp
        .SECONDS).convert_timestamp .MILLISECONDS).tmsp - 1500| ≤
      EpochTimestampType.MILLISECONDS.value :=
  C4_convert_roundtrip_amended 1500 .MILLISECONDS .SECONDS (by decide)

/-- Helper: the delta computed between a DateTime and itself carries zero
total nanoseconds. -/
theorem get_timedelta_self_total_ns (s : DateTime) :
    ((get_timedelta s s .NANOSECONDS).2.2).get_total_nanoseconds = 0 := by
  simp [get_timedelta, TimeDelta.get_total_nanoseconds]

/-- C7: `get_year_fraction_from_datetimes` fails with
`NonPositiveYearFractionError` exactly when the nanosecond delta between
the endpoints is strictly negative; otherwise it returns that delta divided
by `days_per_year(convention) * 86400 * 1e9`; and with equal endpoints it
returns 0 without error. -/
theorem C7_year_fraction_spec (s e : DateTime) (dcc : DayCountConvention) :
    (get_year_fraction_from_datetimes s e dcc =
        .error .NonPositiveYearFractionError ↔
      ((get_timedelta s e .NANOSECONDS).2.2).get_total_nanoseconds < 0) ∧
    (0 ≤ ((get_timedelta s e .NANOSECONDS).2.2).get_total_nanoseconds →
      get_year_fraction_from_datetimes s e dcc =
        .ok ((((get_timedelta s e .NANOSECONDS).2.2).get_total_nanoseconds : ℚ) /
          ((get_number_days_in_year dcc : ℚ) * 86400 * 1000000000))) ∧
    (s = e → get_year_fraction_from_datetimes s e dcc = .ok 0) := by
  have hD : (0 : ℚ) <
      ((get_number_days_in_year dcc : ℚ) * 86400 * 1000000000) := by
    cases dcc <;> norm_num [get_number_days_in_year]
  have hden : (((get_number_days_in_year dcc *
        (24 * 60 * 60 * EpochTimestampType.NANOSECONDS.value) : ℤ)) : ℚ) =
      (get_number_days_in_year dcc : ℚ) * 86400 * 1000000000 := by
    simp only [EpochTimestampType.value]
    push_cast
    ring
  unfold get_year_fraction_from_datetimes
  simp only [hden]
  set tns : ℤ := ((get_timedelta s e .NANOSECONDS).2.2).get_total_nanoseconds
    with htns
  split_ifs with hneg
  · have htneg : tns < 0 := by
      by_contra hc
      push_neg at hc
      have : (0 : ℚ) ≤ (tns : ℚ) /
          ((get_number_days_in_year dcc : ℚ) * 86400 * 1000000000) :=
        div_nonneg (by exact_mod_cast hc) (le_of_lt hD)
      linarith
    refine ⟨⟨fun _ => htneg, fun _ => rfl⟩, fun hge => absurd htneg (by omega), ?_⟩
    intro hse
    subst hse
    rw [htns, get_timedelta_self_total_ns] at htneg
    omega
  · have htpos : ¬ tns < 0 := by
      intro hc
      exact hneg (div_neg_of_neg_of_pos (by exact_mod_cast hc) hD)
    refine ⟨⟨fun habs => absurd habs (by simp), fun hc => absurd hc htpos⟩,
      fun _ => rfl, ?_⟩
    intro hse
    subst hse
    rw [htns, get_timedelta_self_total_ns]
    norm_num

/-- C7 (witness): at equal endpoints `(0, SECONDS)` the year fraction is
accepted and equals 0 (third clause), instantiated for ACT360. -/
theorem C7_year_fraction_spec_witness :
    get_year_fraction_from_datetimes ⟨0, .SECONDS⟩ ⟨0, .SECONDS⟩ .ACT360 =
      .ok 0 :=
  (C7_year_fraction_spec ⟨0, .SECONDS⟩ ⟨0, .SECONDS⟩ .ACT360).2.2 rfl

/-- Helper (decidable over the two closed enumerations): the truncating
quotient of a tenor's day count by the convention's days per year is zero
whenever the day count is smaller. -/
theorem tenor_days_tdiv_small (t : Tenor) (dcc : DayCountConvention)
    (h : get_tenor_in_days t dcc < get_number_days_in_year dcc) :
    Int.tdiv (get_tenor_in_days t dcc) (get_number_days_in_year dcc) = 0 := by
  cases t <;> cases dcc <;> revert h <;> decide

/-- C8: `get_tenor_year_fraction` is the truncating integer quotient
`tenor_in_days / days_per_year` (converted to floating point only after
the integer division), and in particular every tenor whose day count is
below a year's truncates to 0. -/
theorem C8_tenor_year_fraction_tdiv (t : Tenor) (dcc : DayCountConvention) :
    get_tenor_year_fraction t dcc =
      ((Int.tdiv (get_tenor_in_days t dcc)
        (get_number_days_in_year dcc) : ℤ) : ℚ) ∧
    (get_tenor_in_days t dcc < get_number_days_in_year dcc →
      get_tenor_year_fraction t dcc = 0) := by
  refine ⟨rfl, fun h => ?_⟩
  unfold get_tenor_year_fraction
  rw [tenor_days_tdiv_small t dcc h]
  norm_num

/-- C8 (witness): the 1-month tenor under ACT/360 (30 days < 360 days)
yields year fraction 0. -/
theorem C8_tenor_year_fraction_tdiv_witness :
    get_tenor_year_fraction ._1M .ACT360 = 0 :=
  (C8_tenor_year_fraction_tdiv ._1M .ACT360).2 (by decide)

/-- C10: the `ticks >= 0` invariant is checked only by the constructor.
`make 0 SECONDS` succeeds; applying a TimeDelta of -1 seconds to that value
leaves ticks at -1 with no error (the embedding of `apply_time_delta` is
total, mirroring the unchecked `tmsp += ...` of the source); and
`set_timestamp` stores any value, including negative ones,
unconditionally. -/
theorem C10_no_recheck_after_construction :
    DateTime.make 0 .SECONDS = .ok ⟨0, .SECONDS⟩ ∧
    ((⟨0, .SECONDS⟩ : DateTime).apply_time_delta
      ⟨0, 0, 0, -1, 0, 0, 0⟩).tmsp = -1 ∧
    (∀ (dt : DateTime) (v : ℤ), (dt.set_timestamp v).tmsp = v) := by
  refine ⟨by simp [DateTime.make], by decide, fun dt v => rfl⟩

/-- Closed form of the interior `while` loop of
`generate_datetime_sequence`: starting from `cur`, `k` iterations produce
the points `cur + (j+1) * delta` for `j = 0 .. k-1`, all at `cur`'s
precision. -/
theorem genLoop_eq (dt_ptr : TimeDelta) (cur : DateTime) (k : ℕ) :
    genLoop dt_ptr cur k = (List.range k).map
      (fun j => ⟨cur.tmsp + ((j : ℤ) + 1) * dt_ptr.total_at cur.type_,
        cur.type_⟩) := by
  induction k generalizing cur with
  | zero => simp [genLoop]
  | succ k ih =>
    rw [genLoop, ih]
    rw [List.range_succ_eq_map]
    simp only [List.map_cons, List.map_map]
    congr 1
    · simp only [DateTime.apply_time_delta]
      congr 1
      push_cast
      ring
    · apply List.map_congr_left
      intro j hj
      simp only [Function.comp, DateTime.apply_time_delta]
      congr 1
      push_cast
      ring

/-- Helper: concrete value of the period count for the section-8 scenario
(2024-01-01 to 2024-04-01 in epoch seconds, monthly frequency, ACT/365):
91 days / 30 days rounds to 3. -/
theorem sequence_length_scenario :
    (sequence_length_from_frequency_tenor ⟨1704067200, .SECONDS⟩
      ⟨1711929600, .SECONDS⟩ ._1M .ACT365).2.2 = 3 := by
  have h30 : Int.tdiv 365 12 = 30 := by decide
  unfold sequence_length_from_frequency_tenor get_timedelta
    get_tenor_in_timedelta get_tenor_in_days get_number_days_in_month
    get_number_days_in_year
  simp only [DateTime.convert_timestamp, DateTime.set_timestamp,
    DateTime.set_timestamp_type, EpochTimestampType.value, h30]
  unfold TimeDelta.get_total_seconds
  simp only [EpochTimestampType.value]
  norm_num [roundHalfAway, Int.tdiv]

/-- C9 (counterexample): claim C9 says `start` itself is prepended when
`include_start` is true.  With `start = (1500, MILLISECONDS)` the period
computation's SECONDS round trip leaves the shared start object at 2000
ticks (1500 ms rounds to 2 s and scales back to 2000 ms), and that mutated
object is what the source prepends: the sequence returned is
`[(2000, MILLISECONDS)]`, which does not contain the original start. -/
theorem C9_generate_sequence_counterexample :
    generate_datetime_sequence ⟨1500, .MILLISECONDS⟩ .ON .ACT360 true false
      ⟨100000000, .MILLISECONDS⟩ = [⟨2000, .MILLISECONDS⟩] ∧
    (⟨2000, .MILLISECONDS⟩ : DateTime) ≠ ⟨1500, .MILLISECONDS⟩ := by
  constructor
  · unfold generate_datetime_sequence sequence_length_from_frequency_tenor
      get_timedelta get_tenor_in_timedelta get_tenor_in_days
      get_number_days_in_year
    simp only [DateTime.convert_timestamp, DateTime.set_timestamp,
      DateTime.set_timestamp_type, EpochTimestampType.value]
    unfold TimeDelta.get_total_seconds
    simp only [EpochTimestampType.value]
    norm_num [roundHalfAway, Int.tdiv, genLoop]
  · decide

/-- C9 (amended): `generate_datetime_sequence` returns exactly the `n-1`
interior points obtained by repeatedly applying the frequency delta to a
copy of `start` taken before the period count `n` is computed; when
`include_start` is true the prepended element is the shared start object
as the period computation's SECONDS round trip left it
(`(start.convert(SECONDS)).convert(original precision)`), and likewise for
the appended end; when `n <= 1` the interior part is empty regardless of
the flags; and the section-8 scenario (2024-01-01 to 2024-04-01, monthly,
ACT/365, both flags set, endpoints at SECONDS precision so the round trip
is the identity) yields exactly 4 points. -/
theorem C9_generate_sequence_amended :
    (∀ (s : DateTime) (ft : Tenor) (dcc : DayCountConvention)
      (include_start include_end : Bool) (e : DateTime),
      generate_datetime_sequence s ft dcc include_start include_end e =
        (if include_start
          then [(s.convert_timestamp .SECONDS).convert_timestamp s.type_]
          else []) ++
        ((List.range
          ((sequence_length_from_frequency_tenor s e ft dcc).2.2
            - 1).toNat).map
          (fun j => ⟨s.tmsp + ((j : ℤ) + 1) *
            (get_tenor_in_timedelta ft dcc).total_at s.type_, s.type_⟩)) ++
        (if include_end
          then [(e.convert_timestamp .SECONDS).convert_timestamp e.type_]
          else [])) ∧
    (∀ (s : DateTime) (ft : Tenor) (dcc : DayCountConvention)
      (include_start include_end : Bool) (e : DateTime),
      (sequence_length_from_frequency_tenor s e ft dcc).2.2 ≤ 1 →
      generate_datetime_sequence s ft dcc include_start include_end e =
        (if include_start
          then [(s.convert_timestamp .SECONDS).convert_timestamp s.type_]
          else []) ++
        (if include_end
          then [(e.convert_timestamp .SECONDS).convert_timestamp e.type_]
          else [])) ∧
    (generate_datetime_sequence ⟨1704067200, .SECONDS⟩ ._1M .ACT365
      true true ⟨1711929600, .SECONDS⟩).length = 4 := by
  have hfst : ∀ (s e : DateTime) (ft : Tenor) (dcc : DayCountConvention),
      (sequence_length_from_frequency_tenor s e ft dcc).1 =
        (s.convert_timestamp .SECONDS).convert_timestamp s.type_ :=
    fun s e ft dcc => rfl
  have hsnd : ∀ (s e : DateTime) (ft : Tenor) (dcc : DayCountConvention),
      (sequence_length_from_frequency_tenor s e ft dcc).2.1 =
        (e.convert_timestamp .SECONDS).convert_timestamp e.type_ :=
    fun s e ft dcc => rfl
  have ha : ∀ (s : DateTime) (ft : Tenor) (dcc : DayCountConvention)
      (include_start include_end : Bool) (e : DateTime),
      generate_datetime_sequence s ft dcc include_start include_end e =
        (if include_start
          then [(s.convert_timestamp .SECONDS).convert_timestamp s.type_]
          else []) ++
        ((List.range
          ((sequence_length_from_frequency_tenor s e ft dcc).2.2
            - 1).toNat).map
          (fun j => ⟨s.tmsp + ((j : ℤ) + 1) *
            (get_tenor_in_timedelta ft dcc).total_at s.type_, s.type_⟩)) ++
        (if include_end
          then [(e.convert_timestamp .SECONDS).convert_timestamp e.type_]
          else []) := by
    intro s ft dcc is ie e
    simp only [generate_datetime_sequence]
    rw [genLoop_eq, ← hfst s e ft dcc, ← hsnd s e ft dcc]
    cases is <;> cases ie <;> simp
  refine ⟨ha, ?_, ?_⟩
  · intro s ft dcc is ie e hn
    rw [ha]
    have h0 : ((sequence_length_from_frequency_tenor s e ft dcc).2.2
        - 1).toNat = 0 := by omega
    rw [h0]
    simp
  · rw [ha]
    rw [sequence_length_scenario]
    simp

/-- C9 (witness): with equal endpoints at SECONDS precision the period
count is 0 <= 1 and the SECONDS round trip is the identity, so with both
flags set the output is just `[start, end]` (here `start = end`). -/
theorem C9_generate_sequence_amended_witness :
    generate_datetime_sequence ⟨0, .SECONDS⟩ ._1W .ACT360 true true
      ⟨0, .SECONDS⟩ = [⟨0, .SECONDS⟩, ⟨0, .SECONDS⟩] := by
  have h := C9_generate_sequence_amended.2.1 ⟨0, .SECONDS⟩ ._1W .ACT360
    true true ⟨0, .SECONDS⟩ (by
      unfold sequence_length_from_frequency_tenor get_timedelta
        get_tenor_in_timedelta get_tenor_in_days get_number_days_in_year
      simp only [DateTime.convert_timestamp, DateTime.set_timestamp,
        DateTime.set_timestamp_type, EpochTimestampType.value]
      unfold TimeDelta.get_total_seconds
      simp only [EpochTimestampType.value]
      norm_num [roundHalfAway])
  rw [h]
  simp only [DateTime.convert_timestamp, DateTime.set_timestamp,
    DateTime.set_timestamp_type, EpochTimestampType.value]
  norm_num [roundHalfAway]

/-- Helper: `Interpolation2D.make` written as nested conditionals, with
the intermediate `get_x_values` match reduced away. -/
theorem Interpolation2D.make_eq (input : List (ℚ × ℚ)) (g : ℚ) :
    Interpolation2D.make input g =
      if ((mkMap input).map Prod.fst).length < 2 then
        .error .MinimalVectorSize
      else if axisMinX ((mkMap input).map Prod.fst) ≤ -1 ∨
          (18446744073709551616 : ℚ) ≤ axisMinX ((mkMap input).map Prod.fst)
        then .error .UndefinedBehavior
      else
        .ok ⟨mkMap input, (mkMap input).map Prod.fst,
          List.replicate ⌊axisMinX ((mkMap input).map Prod.fst)⌋.toNat 0, g,
          ((mkMap input).map Prod.fst).foldl max
            (((mkMap input).map Prod.fst).headD 0)⟩ := by
  by_cases h1 : ((mkMap input).map Prod.fst).length < 2
  · simp only [Interpolation2D.make, get_x_values]
    rw [if_pos h1, if_pos h1]
  · simp only [Interpolation2D.make, get_x_values]
    rw [if_neg h1, if_neg h1]

/-- C5 (counterexample): claim C5 asserts that constructing over
`{2:1, 1:2}` fails with `NonIncreasingAxis`.  In fact the `std::map`
argument reorders the entries to `{1:2, 2:1}` and construction succeeds
(for every indeterminate `x_min` residue; shown here for residue 0),
producing the sorted axis — and the `y` member is a single zero, the
misinitialized vector described at `Interpolation2D.make`. -/
theorem C5_construction_counterexample :
    Interpolation2D.make [(2, 1), (1, 2)] 0 =
      .ok ⟨[(1, 2), (2, 1)], [1, 2], [0], 0, 2⟩ := by
  norm_num [Interpolation2D.make, get_x_values, mkMap, mapInsert, axisMinX,
    min_def, max_def, List.replicate]

/-- C5 (amended): construction fails with `MinimalSizeViolation` exactly
when the mapping (after `std::map` key deduplication) has fewer than 2
entries; `NonIncreasingAxis` is never raised, because the `std::map` input
iterates its keys in ascending order and the increasing-keys check is dead
code (missing loop braces), so in particular `{2:1, 1:2}` constructs
successfully as `{1:2, 2:1}`; with at least 2 entries, construction
succeeds exactly when the minimum key lies in `(-1, 2^64)` — outside that
range the misinitialized `y` member's `double` to `size_t` count
conversion is undefined behaviour. -/
theorem C5_construction_amended (input : List (ℚ × ℚ)) (g : ℚ) :
    (Interpolation2D.make input g = .error .MinimalVectorSize ↔
      (mkMap input).length < 2) ∧
    (Interpolation2D.make input g = .error .UndefinedBehavior ↔
      2 ≤ (mkMap input).length ∧
      (axisMinX ((mkMap input).map Prod.fst) ≤ -1 ∨
        (18446744073709551616 : ℚ) ≤ axisMinX ((mkMap input).map Prod.fst))) ∧
    ((∃ itp, Interpolation2D.make input g = .ok itp) ↔
      2 ≤ (mkMap input).length ∧
      -1 < axisMinX ((mkMap input).map Prod.fst) ∧
      axisMinX ((mkMap input).map Prod.fst) < 18446744073709551616) := by
  rw [Interpolation2D.make_eq]
  simp only [List.length_map]
  split_ifs with hlen hub
  · exact ⟨iff_of_true rfl hlen,
      iff_of_false (by simp) (by rintro ⟨h2, -⟩; omega),
      iff_of_false (by rintro ⟨itp, h⟩; simp at h)
        (by rintro ⟨h2, -⟩; omega)⟩
  · exact ⟨iff_of_false (by simp) (by omega),
      iff_of_true rfl ⟨by omega, hub⟩,
      iff_of_false (by rintro ⟨itp, h⟩; simp at h)
        (by rintro ⟨-, hlo, hhi⟩; rcases hub with h | h <;> linarith)⟩
  · push_neg at hub
    exact ⟨iff_of_false (by simp) (by omega),
      iff_of_false (by simp)
        (by rintro ⟨-, h⟩; rcases h with h | h <;> linarith [hub.1, hub.2]),
      iff_of_true ⟨_, rfl⟩ ⟨by omega, hub.1, hub.2⟩⟩

/-- C5 (witness): the single-entry mapping `{1:5}` has one key and
construction fails with `MinimalSizeViolation`. -/
theorem C5_construction_amended_witness :
    Interpolation2D.make [(1, 5)] 0 = .error .MinimalVectorSize :=
  (C5_construction_amended [(1, 5)] 0).1.mpr
    (by norm_num [mkMap, mapInsert])

/-- C6 (code divergence at the failing input): over `{0:0, 10:10}` the
result of `evaluate(5)` depends on the indeterminate value the
uninitialized `x_min` member happens to hold: with residue 0 the claimed
value 5.0 is returned, while with residue 6 the same call raises
`OutOfRange`.  The claim's behaviour is therefore not guaranteed by the
code. -/
theorem C6_linear_evaluate_indeterminate :
    linear_evaluate_from [(0, 0), (10, 10)] 0 5 = .ok 5 ∧
    linear_evaluate_from [(0, 0), (10, 10)] 6 5 = .error .OutOfRange := by
  constructor <;>
    norm_num [linear_evaluate_from, Interpolation2D.make, get_x_values,
      mkMap, mapInsert, axisMinX, min_def, max_def,
      LinearInterpolation2D.evaluate, findSegment, mapAt,
      LinearInterpolation2D.linear_interpolate, List.find?]

/-- C1 (code divergence at the failing input): over the four-point axis
`{0:0, 1:1, 2:0, 3:1}` (for every indeterminate `x_min` residue `g`), the
base object's `y` member is the empty vector — not the stored values
`[0, 1, 0, 1]` — because the constructor initializes `y` from
`*std::min_element(x)` instead of `get_y_values()`.  The spline
construction copies this `y` into its coefficient vector `a_` and then
indexes it out of bounds (undefined behaviour), so interior-knot
evaluation cannot return the stored y values. -/
theorem C1_cubic_construction_reads_out_of_bounds (g : ℚ) :
    CubicSpline2D.make [(0, 0), (1, 1), (2, 0), (3, 1)] g =
      .error .UndefinedBehavior ∧
    (Interpolation2D.make [(0, 0), (1, 1), (2, 0), (3, 1)] g).map
      (fun itp => (itp.y, itp.mapped_x_y.map Prod.snd)) =
      .ok ([], [0, 1, 0, 1]) := by
  constructor
  · norm_num [CubicSpline2D.make, Interpolation2D.make, get_x_values,
      mkMap, mapInsert, axisMinX, min_def, max_def, cubic_get_parameters,
      List.range_succ, List.mapM, List.mapM.loop]
  · norm_num [Interpolation2D.make, get_x_values, mkMap, mapInsert,
      axisMinX, min_def, max_def, Except.map]
